import Mathlib

/-!
Verification of `time_data.hpp` (the time-data calculator for Nintendo DS
RNG-manipulation timers).

Embedding conventions:
* Machine doubles (`fp64`) are modelled by exact rationals `ℚ`.  Every
  floating-point operation in the source (division, addition, `std::fmod`,
  comparison, cast to integer) is modelled by the corresponding exact
  rational operation; `std::fmod` and integer casts use truncation toward
  zero, matching IEEE-754 / C++ semantics on the mathematical values.
* `ui32`/`ui8` values are modelled by `ℕ`; the unsigned 32-bit subtraction
  `t_target_delay - t_calibrated_delay` is modelled explicitly with
  wraparound modulo `2 ^ 32` (`u32_sub`), and casts of nonnegative doubles
  to `ui32`/`ui8` by truncation (`ratTrunc`, then `Int.toNat`).
* The `ASSERT(exp)` macro expands (for `exp` = `time_data.load_time > 0.0`)
  to `if(!time_data.load_time > 0.0) { __debugbreak(); }`; by C++ operator
  precedence the checked condition is `(!time_data.load_time) > 0.0`, where
  `!` on a double yields `1` when the value equals `0` and `0` otherwise.
  This trap condition is modelled by `get_time_data_debug_traps`.
-/

namespace rng.time

/-- Truncation of a rational toward zero, the conversion performed by a C++
`static_cast` from a floating-point value to an integer type. -/
def ratTrunc (q : ℚ) : ℤ := if 0 ≤ q then ⌊q⌋ else ⌈q⌉

/-- Constant `S_PER_MIN` from the source: one minute is 60 seconds. -/
def S_PER_MIN : ℚ := 60.0

/-- Constant `NDS_FPS` from the source: the Nintendo DS framerate. -/
def NDS_FPS : ℚ := 59.8261

/-- Constant `MIN_BOOT_TIME` from the source: minimum boot time. -/
def MIN_BOOT_TIME : ℚ := 14.0

/-- The modulus of unsigned 32-bit arithmetic. -/
def U32_MOD : ℕ := 2 ^ 32

/-- Unsigned 32-bit subtraction `a - b` with wraparound, on `ℕ` models of
`ui32` values. -/
def u32_sub (a b : ℕ) : ℕ := (a % U32_MOD + (U32_MOD - b % U32_MOD)) % U32_MOD

/-- `std::fmod x y`: the floating-point remainder, `x - y * trunc (x / y)`,
whose sign follows the dividend. -/
def fmod (x y : ℚ) : ℚ := x - y * (ratTrunc (x / y) : ℚ)

/-- C++ logical negation `!x` applied to an arithmetic value and used again
as an arithmetic value: `1` if `x == 0`, else `0`. -/
def cpp_not (x : ℚ) : ℚ := if x = 0 then 1 else 0

/-- `struct TimeData` from the source. -/
structure TimeData where
  boot_time : ℚ := 0.0
  load_time : ℚ := 0.0
  offset : ℕ := 0

/-- `delay_to_second`: convert from delay [frames] to seconds. -/
def delay_to_second (t_delay : ℕ) : ℚ := (t_delay : ℚ) / NDS_FPS

/-- `second_to_delay`: convert from seconds to delay [frames]; the
`static_cast<ui32>` truncates toward zero. -/
def second_to_delay (t_second : ℚ) : ℕ := (ratTrunc (t_second * NDS_FPS)).toNat

/-- The boot-time normalization loop of `get_time_data`:
`while (boot_time < MIN_BOOT_TIME) { boot_time += S_PER_MIN; }`. -/
def boot_adjust (b : ℚ) : ℚ :=
  if h : b < MIN_BOOT_TIME then boot_adjust (b + S_PER_MIN) else b
termination_by Nat.ceil (MIN_BOOT_TIME - b)
decreasing_by
  have h1 : (0 : ℚ) < MIN_BOOT_TIME - b := by linarith
  have h2 : 1 ≤ Nat.ceil (MIN_BOOT_TIME - b) := Nat.ceil_pos.mpr h1
  have h3 : Nat.ceil (MIN_BOOT_TIME - (b + S_PER_MIN)) ≤ Nat.ceil (MIN_BOOT_TIME - b) - 1 := by
    rw [Nat.ceil_le, Nat.cast_sub h2, Nat.cast_one]
    have h4 : (MIN_BOOT_TIME - b : ℚ) ≤ Nat.ceil (MIN_BOOT_TIME - b) := Nat.le_ceil _
    have h5 : (1 : ℚ) ≤ S_PER_MIN := by norm_num [S_PER_MIN]
    linarith
  omega

/-- The number of iterations performed by the boot-time normalization loop
when started at `b`. -/
def boot_count (b : ℚ) : ℕ :=
  if h : b < MIN_BOOT_TIME then boot_count (b + S_PER_MIN) + 1 else 0
termination_by Nat.ceil (MIN_BOOT_TIME - b)
decreasing_by
  have h1 : (0 : ℚ) < MIN_BOOT_TIME - b := by linarith
  have h2 : 1 ≤ Nat.ceil (MIN_BOOT_TIME - b) := Nat.ceil_pos.mpr h1
  have h3 : Nat.ceil (MIN_BOOT_TIME - (b + S_PER_MIN)) ≤ Nat.ceil (MIN_BOOT_TIME - b) - 1 := by
    rw [Nat.ceil_le, Nat.cast_sub h2, Nat.cast_one]
    have h4 : (MIN_BOOT_TIME - b : ℚ) ≤ Nat.ceil (MIN_BOOT_TIME - b) := Nat.le_ceil _
    have h5 : (1 : ℚ) ≤ S_PER_MIN := by norm_num [S_PER_MIN]
    linarith
  omega

/-- `get_time_data` from the source: compute the time data from the provided
calibrated and target delay and second.  The unsigned parameters are `ℕ`
models of `ui32` (delays) and `ui8` (seconds) values. -/
def get_time_data (t_calibrated_delay : ℕ) (t_calibrated_second : ℕ)
    (t_target_delay : ℕ) (t_target_second : ℕ) : TimeData :=
  let load_time : ℚ :=
    delay_to_second (u32_sub t_target_delay t_calibrated_delay) + (t_calibrated_second : ℚ)
  let boot_time : ℚ :=
    boot_adjust (fmod ((t_target_second : ℚ) - load_time) S_PER_MIN + 0.2)
  let offset : ℕ := (ratTrunc ((boot_time + load_time) / S_PER_MIN)).toNat
  { boot_time := boot_time, load_time := load_time, offset := offset }

/-- The condition under which the debug-build `ASSERT` in `get_time_data`
fires `__debugbreak()`: the macro expansion `if(!time_data.load_time > 0.0)`
parses as `(!time_data.load_time) > 0.0`. -/
def get_time_data_debug_traps (t_calibrated_delay : ℕ) (t_calibrated_second : ℕ)
    (t_target_delay : ℕ) (t_target_second : ℕ) : Prop :=
  cpp_not ((get_time_data t_calibrated_delay t_calibrated_second
    t_target_delay t_target_second).load_time) > 0.0

/-- The spec formula for `second_to_delay`: `floor(seconds * 59.8261)`. -/
def second_to_delay_specform (t_second : ℚ) : ℕ := (⌊t_second * 59.8261⌋).toNat

/-- The spec formula for `delay_to_second`: `delay / 59.8261`. -/
def delay_to_second_specform (t_delay : ℕ) : ℚ := (t_delay : ℚ) / 59.8261

lemma ratTrunc_natCast (n : ℕ) : ratTrunc (n : ℚ) = n := by
  simp [ratTrunc]

lemma sub_one_lt_ratTrunc (q : ℚ) : q - 1 < (ratTrunc q : ℚ) := by
  unfold ratTrunc
  split_ifs with h
  · push_cast
    exact Int.sub_one_lt_floor q
  · have h1 : q ≤ (⌈q⌉ : ℚ) := Int.le_ceil q
    push_cast
    linarith

lemma ratTrunc_lt_add_one (q : ℚ) : (ratTrunc q : ℚ) < q + 1 := by
  unfold ratTrunc
  split_ifs with h
  · have h1 : (⌊q⌋ : ℚ) ≤ q := Int.floor_le q
    push_cast
    linarith
  · push_cast
    exact Int.ceil_lt_add_one q

lemma fmod_lt (x y : ℚ) (hy : 0 < y) : fmod x y < y := by
  unfold fmod
  have h1 : x / y - 1 < (ratTrunc (x / y) : ℚ) := sub_one_lt_ratTrunc (x / y)
  have h2 : y * (x / y - 1) < y * (ratTrunc (x / y) : ℚ) :=
    mul_lt_mul_of_pos_left h1 hy
  have h3 : y * (x / y) = x := mul_div_cancel₀ x (ne_of_gt hy)
  nlinarith

lemma neg_lt_fmod (x y : ℚ) (hy : 0 < y) : -y < fmod x y := by
  unfold fmod
  have h1 : (ratTrunc (x / y) : ℚ) < x / y + 1 := ratTrunc_lt_add_one (x / y)
  have h2 : y * (ratTrunc (x / y) : ℚ) < y * (x / y + 1) :=
    mul_lt_mul_of_pos_left h1 hy
  have h3 : y * (x / y) = x := mul_div_cancel₀ x (ne_of_gt hy)
  nlinarith

lemma NDS_FPS_pos : 0 < NDS_FPS := by norm_num [NDS_FPS]

lemma S_PER_MIN_pos : 0 < S_PER_MIN := by norm_num [S_PER_MIN]

lemma load_time_eq (cd cs td ts : ℕ) :
    (get_time_data cd cs td ts).load_time = (u32_sub td cd : ℚ) / NDS_FPS + (cs : ℚ) := rfl

lemma boot_time_eq (cd cs td ts : ℕ) :
    (get_time_data cd cs td ts).boot_time =
      boot_adjust (fmod ((ts : ℚ) - (get_time_data cd cs td ts).load_time) S_PER_MIN + 0.2) :=
  rfl

lemma offset_eq (cd cs td ts : ℕ) :
    (get_time_data cd cs td ts).offset =
      (ratTrunc (((get_time_data cd cs td ts).boot_time +
        (get_time_data cd cs td ts).load_time) / S_PER_MIN)).toNat :=
  rfl

lemma calibrated_second_le_load_time (cd cs td ts : ℕ) :
    (cs : ℚ) ≤ (get_time_data cd cs td ts).load_time := by
  rw [load_time_eq]
  have h1 : (0 : ℚ) ≤ (u32_sub td cd : ℚ) / NDS_FPS :=
    div_nonneg (Nat.cast_nonneg _) NDS_FPS_pos.le
  linarith

lemma load_time_nonneg (cd cs td ts : ℕ) :
    0 ≤ (get_time_data cd cs td ts).load_time := by
  have h1 : (0 : ℚ) ≤ (cs : ℚ) := Nat.cast_nonneg cs
  exact h1.trans (calibrated_second_le_load_time cd cs td ts)

lemma pre_boot_bounds (x : ℚ) :
    -(59.8 : ℚ) < fmod x S_PER_MIN + 0.2 ∧ fmod x S_PER_MIN + 0.2 < 60.2 := by
  have h1 : fmod x S_PER_MIN < S_PER_MIN := fmod_lt x S_PER_MIN S_PER_MIN_pos
  have h2 : -S_PER_MIN < fmod x S_PER_MIN := neg_lt_fmod x S_PER_MIN S_PER_MIN_pos
  norm_num [S_PER_MIN] at h1 h2 ⊢
  constructor <;> linarith

lemma boot_adjust_cases (b : ℚ) (hlo : -(59.8 : ℚ) < b) (hhi : b < 60.2) :
    (MIN_BOOT_TIME ≤ b ∧ boot_adjust b = b ∧ boot_count b = 0) ∨
    (b < MIN_BOOT_TIME ∧ MIN_BOOT_TIME ≤ b + S_PER_MIN ∧
      boot_adjust b = b + S_PER_MIN ∧ boot_count b = 1) ∨
    (b + S_PER_MIN < MIN_BOOT_TIME ∧
      boot_adjust b = b + S_PER_MIN + S_PER_MIN ∧ boot_count b = 2) := by
  by_cases h1 : b < MIN_BOOT_TIME
  · by_cases h2 : b + S_PER_MIN < MIN_BOOT_TIME
    · right; right
      have h3 : ¬ b + S_PER_MIN + S_PER_MIN < MIN_BOOT_TIME := by
        norm_num [MIN_BOOT_TIME, S_PER_MIN] at *
        linarith
      refine ⟨h2, ?_, ?_⟩
      · rw [boot_adjust, dif_pos h1, boot_adjust, dif_pos h2, boot_adjust, dif_neg h3]
      · rw [boot_count, dif_pos h1, boot_count, dif_pos h2, boot_count, dif_neg h3]
    · right; left
      refine ⟨h1, not_lt.mp h2, ?_, ?_⟩
      · rw [boot_adjust, dif_pos h1, boot_adjust, dif_neg h2]
      · rw [boot_count, dif_pos h1, boot_count, dif_neg h2]
  · left
    refine ⟨not_lt.mp h1, ?_, ?_⟩
    · rw [boot_adjust, dif_neg h1]
    · rw [boot_count, dif_neg h1]

/-- Claim C3: for every input, the `boot_time` field of the `TimeData`
returned by `get_time_data` satisfies `boot_time >= 14.0` and
`boot_time < 74.0`. -/
theorem claim_C3_boot_time_window (cd cs td ts : ℕ) :
    (14 : ℚ) ≤ (get_time_data cd cs td ts).boot_time ∧
      (get_time_data cd cs td ts).boot_time < 74 := by
  rw [boot_time_eq]
  set x : ℚ := (ts : ℚ) - (get_time_data cd cs td ts).load_time with hx
  obtain ⟨hlo, hhi⟩ := pre_boot_bounds x
  rcases boot_adjust_cases (fmod x S_PER_MIN + 0.2) hlo hhi with
    ⟨h1, h2, _⟩ | ⟨h1, h1b, h2, _⟩ | ⟨h1, h2, _⟩ <;>
    rw [h2] <;> norm_num [MIN_BOOT_TIME, S_PER_MIN] at * <;> constructor <;> linarith

/-- Claim C6: for every input, the boot-time normalization loop terminates
(`boot_adjust` is a total function on the pre-loop value) and performs at
most 2 iterations, the pre-loop value lying strictly within one modulo
cycle of zero; the resulting `boot_time` is the pre-loop value plus 60
times the iteration count. -/
theorem claim_C6_loop_terminates_in_two (cd cs td ts : ℕ) :
    -(59.8 : ℚ) < fmod ((ts : ℚ) - (get_time_data cd cs td ts).load_time) S_PER_MIN + 0.2 ∧
    fmod ((ts : ℚ) - (get_time_data cd cs td ts).load_time) S_PER_MIN + 0.2 < 60.2 ∧
    boot_count (fmod ((ts : ℚ) - (get_time_data cd cs td ts).load_time) S_PER_MIN + 0.2) ≤ 2 ∧
    (get_time_data cd cs td ts).boot_time =
      fmod ((ts : ℚ) - (get_time_data cd cs td ts).load_time) S_PER_MIN + 0.2 +
        60 * boot_count (fmod ((ts : ℚ) - (get_time_data cd cs td ts).load_time) S_PER_MIN + 0.2) := by
  set x : ℚ := (ts : ℚ) - (get_time_data cd cs td ts).load_time with hx
  obtain ⟨hlo, hhi⟩ := pre_boot_bounds x
  refine ⟨hlo, hhi, ?_⟩
  rw [boot_time_eq, ← hx]
  rcases boot_adjust_cases (fmod x S_PER_MIN + 0.2) hlo hhi with
    ⟨h1, h2, h3⟩ | ⟨h1, h2, h3, h4⟩ | ⟨h1, h2, h3⟩
  · rw [h2, h3]
    norm_num
  · rw [h3, h4]
    norm_num [S_PER_MIN]
  · rw [h2, h3]
    norm_num [S_PER_MIN]
    ring

/-- Claim C2: for every `ui32`/`ui8` input, the `load_time` computed by
`get_time_data` is at least `calibrated_second` (hence never negative), and
it equals `0` exactly when `target_delay = calibrated_delay` and
`calibrated_second = 0`. -/
theorem claim_C2_load_time_lower_bound (cd cs td ts : ℕ)
    (hcd : cd < 2 ^ 32) (htd : td < 2 ^ 32) :
    (cs : ℚ) ≤ (get_time_data cd cs td ts).load_time ∧
    0 ≤ (get_time_data cd cs td ts).load_time ∧
    ((get_time_data cd cs td ts).load_time = 0 ↔ (td = cd ∧ cs = 0)) := by
  refine ⟨calibrated_second_le_load_time cd cs td ts, load_time_nonneg cd cs td ts, ?_⟩
  rw [load_time_eq]
  have ha : (0 : ℚ) ≤ (u32_sub td cd : ℚ) / NDS_FPS :=
    div_nonneg (Nat.cast_nonneg _) NDS_FPS_pos.le
  have hb : (0 : ℚ) ≤ (cs : ℚ) := Nat.cast_nonneg cs
  constructor
  · intro h
    have hc : (u32_sub td cd : ℚ) / NDS_FPS = 0 := by linarith
    have hcs : (cs : ℚ) = 0 := by linarith
    have hd : (u32_sub td cd : ℚ) = 0 := by
      rcases div_eq_zero_iff.mp hc with h1 | h1
      · exact h1
      · exact absurd h1 (ne_of_gt NDS_FPS_pos)
    have he : u32_sub td cd = 0 := Nat.cast_eq_zero.mp hd
    have hf : cs = 0 := Nat.cast_eq_zero.mp hcs
    refine ⟨?_, hf⟩
    simp only [u32_sub, U32_MOD] at he
    omega
  · rintro ⟨h1, h2⟩
    subst h1
    subst h2
    have he : u32_sub td td = 0 := by
      simp only [u32_sub, U32_MOD]
      omega
    rw [he]
    norm_num

/-- Claim C5: in a debug build `get_time_data` traps exactly when the
computed `load_time` is not positive (which, `load_time` being nonnegative,
coincides with the trap condition of the expanded `ASSERT` macro), and in a
release build the assertion is a no-op: `get_time_data` returns a
`TimeData` for every input. -/
theorem claim_C5_assert_semantics (cd cs td ts : ℕ) :
    (get_time_data_debug_traps cd cs td ts ↔ (get_time_data cd cs td ts).load_time ≤ 0) ∧
    ∃ r : TimeData, get_time_data cd cs td ts = r := by
  refine ⟨?_, ⟨_, rfl⟩⟩
  have h0 := load_time_nonneg cd cs td ts
  unfold get_time_data_debug_traps cpp_not
  split_ifs with h
  · norm_num [h]
  · constructor
    · intro hgt
      norm_num at hgt
    · intro hle
      exact absurd (le_antisymm hle h0) h

/-- Claim C4 counterexample: with `calibrated_delay = 5`,
`calibrated_second = 0`, `target_second = 0`, the target delays
`d1 = 0 < d2 = 5` do not give a strictly larger `load_time` for `d2`:
the `u32` wraparound makes `load_time` for `d1 = 0` enormous while
`load_time` for `d2 = 5` is `0`. -/
theorem claim_C4_counterexample :
    (0 : ℕ) < 5 ∧
    ¬ ((get_time_data 5 0 0 0).load_time < (get_time_data 5 0 5 0).load_time) := by
  refine ⟨by norm_num, ?_⟩
  rw [load_time_eq, load_time_eq]
  have h1 : u32_sub 5 5 = 0 := by decide
  have h2 : u32_sub 0 5 = 4294967291 := by decide
  rw [h1, h2]
  norm_num [NDS_FPS]

/-- Claim C4 (amended): holding `calibrated_delay`, `calibrated_second` and
`target_second` fixed, increasing the target delay from `d1` to `d2`
strictly increases `load_time`, provided `d1` and `d2` lie on the same side
of `calibrated_delay` (both at least `calibrated_delay`, or both below it),
so that the `u32` subtraction wraps for both or for neither. -/
theorem claim_C4_monotonic_amended (cd cs ts d1 d2 : ℕ)
    (hcd : cd < 2 ^ 32) (hd2 : d2 < 2 ^ 32) (h12 : d1 < d2)
    (hside : cd ≤ d1 ∨ d2 < cd) :
    (get_time_data cd cs d1 ts).load_time < (get_time_data cd cs d2 ts).load_time := by
  rw [load_time_eq, load_time_eq]
  have hmono : u32_sub d1 cd < u32_sub d2 cd := by
    simp only [u32_sub, U32_MOD]
    rcases hside with h | h <;> omega
  have hQ : (u32_sub d1 cd : ℚ) < (u32_sub d2 cd : ℚ) := by exact_mod_cast hmono
  have hF := NDS_FPS_pos
  gcongr

/-- Witness for claim C4 (amended), at `cd = 3`, `cs = 7`, `ts = 20`,
`d1 = 10`, `d2 = 11`. -/
theorem claim_C4_monotonic_amended_witness :
    (3 : ℕ) < 2 ^ 32 ∧ (11 : ℕ) < 2 ^ 32 ∧ (10 : ℕ) < 11 ∧ (3 : ℕ) ≤ 10 ∧
    (get_time_data 3 7 10 20).load_time < (get_time_data 3 7 11 20).load_time :=
  ⟨by norm_num, by norm_num, by norm_num, by norm_num,
    claim_C4_monotonic_amended 3 7 20 10 11 (by norm_num) (by norm_num) (by norm_num)
      (Or.inl (by norm_num))⟩

/-- Claim C1 counterexample: for `calibrated_delay = 2000`,
`calibrated_second = 10`, `target_delay = 1000`, `target_second = 5`, the
`load_time` computed by `get_time_data` is not negative: the `ui32`
subtraction `1000 - 2000` wraps around to `2 ^ 32 - 1000`. -/
theorem claim_C1_counterexample :
    ¬ ((get_time_data 2000 10 1000 5).load_time < 0) := by
  rw [load_time_eq]
  have h2 : u32_sub 1000 2000 = 4294966296 := by decide
  rw [h2]
  norm_num [NDS_FPS]

/-- Claim C1 (amended): for the inputs `calibrated_delay = 2000`,
`calibrated_second = 10`, `target_delay = 1000`, `target_second = 5`, the
unsigned 32-bit subtraction wraps around, so `get_time_data` computes the
large positive `load_time` `(2 ^ 32 - 1000) / 59.8261 + 10` rather than a
negative one; the invalid-calibration condition `load_time <= 0` does not
hold. -/
theorem claim_C1_amended_wraparound :
    (get_time_data 2000 10 1000 5).load_time = (4294966296 : ℚ) / NDS_FPS + 10 ∧
    0 < (get_time_data 2000 10 1000 5).load_time := by
  have h1 : (get_time_data 2000 10 1000 5).load_time = (4294966296 : ℚ) / NDS_FPS + 10 := by
    rw [load_time_eq]
    have h2 : u32_sub 1000 2000 = 4294966296 := by decide
    rw [h2]
    norm_num
  refine ⟨h1, ?_⟩
  rw [h1]
  norm_num [NDS_FPS]

/-- Witness for claim C2, at `cd = 3`, `cs = 0`, `td = 3`, `ts = 0`. -/
theorem claim_C2_load_time_lower_bound_witness :
    (3 : ℕ) < 2 ^ 32 ∧
    (((0 : ℕ) : ℚ) ≤ (get_time_data 3 0 3 0).load_time ∧
      0 ≤ (get_time_data 3 0 3 0).load_time ∧
      ((get_time_data 3 0 3 0).load_time = 0 ↔ ((3 : ℕ) = 3 ∧ (0 : ℕ) = 0))) :=
  ⟨by norm_num, claim_C2_load_time_lower_bound 3 0 3 0 (by norm_num) (by norm_num)⟩

/-- Claim C7: for every delay `d` up to 10,000,000, converting to seconds
and back gives `d` or `d - 1`; in the exact-rational model the round trip
in fact returns `d` itself. -/
theorem claim_C7_round_trip (d : ℕ) (h : d ≤ 10000000) :
    second_to_delay (delay_to_second d) = d ∨ second_to_delay (delay_to_second d) = d - 1 := by
  left
  unfold second_to_delay delay_to_second
  rw [div_mul_cancel₀ _ (ne_of_gt NDS_FPS_pos), ratTrunc_natCast]
  exact Int.toNat_natCast d

/-- Witness for claim C7, at `d = 42`. -/
theorem claim_C7_round_trip_witness :
    (42 : ℕ) ≤ 10000000 ∧
    (second_to_delay (delay_to_second 42) = 42 ∨
      second_to_delay (delay_to_second 42) = 42 - 1) :=
  ⟨by norm_num, claim_C7_round_trip 42 (by norm_num)⟩

/-- Claim C9: for every nonnegative second count `s` whose product with
`59.8261` is in `ui32` range, `second_to_delay s` equals the spec's
`floor(s * 59.8261)` (truncation toward zero agreeing with the floor on
nonnegative values), and `delay_to_second` equals the spec's
`delay / 59.8261` on every delay. -/
theorem claim_C9_conversion_formulas (s : ℚ) (hs : 0 ≤ s)
    (hr : s * NDS_FPS < 2 ^ 32) :
    second_to_delay s = second_to_delay_specform s ∧
    ∀ d : ℕ, delay_to_second d = delay_to_second_specform d := by
  constructor
  · unfold second_to_delay second_to_delay_specform
    have h1 : ratTrunc (s * NDS_FPS) = ⌊s * NDS_FPS⌋ :=
      if_pos (mul_nonneg hs NDS_FPS_pos.le)
    rw [h1]
    rfl
  · intro d
    rfl

/-- Witness for claim C9, at `s = 5 / 2`. -/
theorem claim_C9_conversion_formulas_witness :
    (0 : ℚ) ≤ 5 / 2 ∧ (5 / 2 : ℚ) * NDS_FPS < 2 ^ 32 ∧
    (second_to_delay (5 / 2) = second_to_delay_specform (5 / 2) ∧
      ∀ d : ℕ, delay_to_second d = delay_to_second_specform d) :=
  ⟨by norm_num, by norm_num [NDS_FPS],
    claim_C9_conversion_formulas (5 / 2) (by norm_num) (by norm_num [NDS_FPS])⟩

/-- Claim C10: the frame-count difference in `get_time_data` is computed
with unsigned 32-bit wraparound: the value converted to seconds is
`(target_delay - calibrated_delay) mod 2 ^ 32`, and when
`target_delay < calibrated_delay` the subtraction underflows to the large
positive count `target_delay + 2 ^ 32 - calibrated_delay`. -/
theorem claim_C10_wraparound (cd cs td ts : ℕ)
    (hcd : cd < 2 ^ 32) (htd : td < 2 ^ 32) :
    ((u32_sub td cd : ℕ) : ℤ) = ((td : ℤ) - (cd : ℤ)) % 2 ^ 32 ∧
    (get_time_data cd cs td ts).load_time =
      ((((td : ℤ) - (cd : ℤ)) % 2 ^ 32 : ℤ) : ℚ) / NDS_FPS + (cs : ℚ) ∧
    (td < cd → u32_sub td cd = td + 2 ^ 32 - cd ∧ 0 < u32_sub td cd) := by
  have h1 : ((u32_sub td cd : ℕ) : ℤ) = ((td : ℤ) - (cd : ℤ)) % 2 ^ 32 := by
    simp only [u32_sub, U32_MOD]
    push_cast
    omega
  refine ⟨h1, ?_, ?_⟩
  · rw [load_time_eq, ← h1]
    push_cast
    ring
  · intro h
    simp only [u32_sub, U32_MOD]
    constructor <;> omega

/-- Witness for claim C10, at `cd = 5`, `cs = 0`, `td = 3`, `ts = 0`. -/
theorem claim_C10_wraparound_witness :
    (5 : ℕ) < 2 ^ 32 ∧ (3 : ℕ) < 2 ^ 32 ∧
    (((u32_sub 3 5 : ℕ) : ℤ) = ((3 : ℤ) - (5 : ℤ)) % 2 ^ 32 ∧
      (get_time_data 5 0 3 0).load_time =
        ((((3 : ℤ) - (5 : ℤ)) % 2 ^ 32 : ℤ) : ℚ) / NDS_FPS + ((0 : ℕ) : ℚ) ∧
      ((3 : ℕ) < 5 → u32_sub 3 5 = 3 + 2 ^ 32 - 5 ∧ 0 < u32_sub 3 5)) :=
  ⟨by norm_num, by norm_num, claim_C10_wraparound 5 0 3 0 (by norm_num) (by norm_num)⟩

/-- Claim C8: for `calibrated_delay = 1000`, `calibrated_second = 30`,
`target_delay = 1598`, `target_second = 45`, `get_time_data` returns
`load_time = (1598 - 1000) / 59.8261 + 30` (about `39.996`, within `0.01`
of the quoted `39.993`), a `boot_time` obtained from
`fmod(45 - load_time, 60) + 0.2` by adding `60` exactly once (about
`65.204`, within `0.01` of the quoted `65.207`), and `offset = 1`. -/
theorem claim_C8_concrete_scenario :
    (get_time_data 1000 30 1598 45).load_time = (1598 - 1000 : ℚ) / 59.8261 + 30 ∧
    fmod ((45 : ℚ) - (get_time_data 1000 30 1598 45).load_time) S_PER_MIN + 0.2 < 14 ∧
    (14 : ℚ) ≤ fmod ((45 : ℚ) - (get_time_data 1000 30 1598 45).load_time) S_PER_MIN + 0.2 + 60 ∧
    (get_time_data 1000 30 1598 45).boot_time =
      fmod ((45 : ℚ) - (get_time_data 1000 30 1598 45).load_time) S_PER_MIN + 0.2 + 60 ∧
    (get_time_data 1000 30 1598 45).offset = 1 ∧
    |(get_time_data 1000 30 1598 45).load_time - 39.993| < 1 / 100 ∧
    |(get_time_data 1000 30 1598 45).boot_time - 65.207| < 1 / 100 := by
  have hlt : (get_time_data 1000 30 1598 45).load_time = 23927830 / 598261 := by
    rw [load_time_eq]
    have h2 : u32_sub 1598 1000 = 598 := by decide
    rw [h2]
    norm_num [NDS_FPS]
  have hx : (45 : ℚ) - 23927830 / 598261 = 2993915 / 598261 := by norm_num
  have hcond : (0 : ℚ) ≤ (2993915 / 598261 : ℚ) / S_PER_MIN := by norm_num [S_PER_MIN]
  have hfloor : ⌊(2993915 / 598261 : ℚ) / S_PER_MIN⌋ = 0 := by norm_num [S_PER_MIN]
  have hpre : fmod ((45 : ℚ) - 23927830 / 598261) S_PER_MIN + 0.2 = 15567836 / 2991305 := by
    rw [hx]
    unfold fmod ratTrunc
    rw [if_pos hcond, hfloor]
    norm_num
  have hb1 : (15567836 / 2991305 : ℚ) < MIN_BOOT_TIME := by norm_num [MIN_BOOT_TIME]
  have hb2 : ¬ (15567836 / 2991305 + S_PER_MIN : ℚ) < MIN_BOOT_TIME := by
    norm_num [MIN_BOOT_TIME, S_PER_MIN]
  have hba : boot_adjust (15567836 / 2991305 : ℚ) = 15567836 / 2991305 + S_PER_MIN := by
    rw [boot_adjust, dif_pos hb1, boot_adjust, dif_neg hb2]
  have hboot : (get_time_data 1000 30 1598 45).boot_time = 15567836 / 2991305 + 60 := by
    rw [boot_time_eq, hlt]
    push_cast
    rw [hpre, hba]
    norm_num [S_PER_MIN]
  have hsum : ((15567836 / 2991305 + 60 : ℚ) + 23927830 / 598261) / S_PER_MIN = 263 / 150 := by
    norm_num [S_PER_MIN]
  have hcond2 : (0 : ℚ) ≤ (263 / 150 : ℚ) := by norm_num
  have hfl2 : ⌊(263 / 150 : ℚ)⌋ = 1 := by norm_num
  have hoff : (get_time_data 1000 30 1598 45).offset = 1 := by
    rw [offset_eq, hboot, hlt, hsum]
    unfold ratTrunc
    rw [if_pos hcond2, hfl2]
    rfl
  refine ⟨?_, ?_, ?_, ?_, hoff, ?_, ?_⟩
  · rw [hlt]
    norm_num
  · rw [hlt, hpre]
    norm_num
  · rw [hlt, hpre]
    norm_num
  · rw [hboot, hlt, hpre]
  · rw [hlt, abs_lt]
    constructor <;> norm_num
  · rw [hboot, abs_lt]
    constructor <;> norm_num

end rng.time
